import Mathlib

/-!
Verification development for the emergency-dispatch web client
(caller triage chat, paramedic intake, driver routing/queue, plus a
camera image-compressor demo).

The definitions below are a shallow embedding of the TypeScript/JSX
sources:
  * `src/src/pages/DriverPage.tsx` — triage decision engine
    (`evaluateStep`), dispatch-queue comparator (`tier` / `data.sort`),
    haversine distance and nearest-hospital selection, OSRM route fetch
    and ETA derivation, and the driver status handlers;
  * `src/frontend/src/pages/paramedicPage.jsx` — vitals validation and
    the standard/MCI intake writes;
  * `src/unnamed/part_000` — the `compressToUnder100KB` loop;
  * `src/unnamed/part_002` — the mass-casualty dispatch-queue variant
    (`getTier`, BLACK tier) and its status handlers.

Modelling conventions: JavaScript strings are Lean `String`s, with the
character-level operations (`toLowerCase`, `includes`) modelled on
`List Char` (ASCII case folding, as all compared literals are ASCII);
JS numbers holding integers (timestamps, tiers) are `Int`; JS decimal
arithmetic (route distances, compression qualities) is modelled exactly
over `ℚ`; geographic trigonometry is modelled over `ℝ`; Firestore
documents are records, `updateDoc` partial merges are field updates, and
a fetch that can fail is an explicit outcome value consumed exactly once
(the source performs a single attempt and catches all errors).
-/

namespace EmergencyDispatch

/-! ### JavaScript string helpers -/

/-- Model of JS `String.prototype.includes` on character lists:
`listIncludes needle hay` is true iff `needle` occurs contiguously in
`hay`. -/
def listIncludes (needle : List Char) : List Char → Bool
  | [] => needle.isPrefixOf []
  | c :: rest => needle.isPrefixOf (c :: rest) || listIncludes needle rest

/-- Model of `answer.toLowerCase().includes('yes')` from `evaluateStep`
(DriverPage.tsx line 1028): ASCII-lowercase the answer and look for the
substring `"yes"`. -/
def includesYes (answer : String) : Bool :=
  listIncludes "yes".data (answer.data.map Char.toLower)

/-! ### Triage decision engine (DriverPage.tsx lines 1027–1044) -/

/-- The terminal result shape produced by the triage engine
(`TriageResult` in the source). -/
structure TriageResult where
  triage_category : String
  priority_rank : Nat
  short_reason : String
  next_step : String
deriving DecidableEq, Repr

def nextStepText : String :=
  "Emergency logged. Ambulance dispatched based on priority."

/-- `endStates.RED` from `evaluateStep`. -/
def endStateRED : TriageResult :=
  { triage_category := "RED", priority_rank := 1
    short_reason := "Life-threatening condition detected. Immediate response required."
    next_step := nextStepText }

/-- `endStates.YELLOW` from `evaluateStep`. -/
def endStateYELLOW : TriageResult :=
  { triage_category := "YELLOW", priority_rank := 2
    short_reason := "Serious condition but currently stable. Priority response dispatched."
    next_step := nextStepText }

/-- `endStates.GREEN` from `evaluateStep`. -/
def endStateGREEN : TriageResult :=
  { triage_category := "GREEN", priority_rank := 3
    short_reason := "Minor condition. Patient is alert and mobile."
    next_step := nextStepText }

/-- `evaluateStep` (DriverPage.tsx lines 1027–1044): returns `none` to
continue to the next question or a terminal `TriageResult`. -/
def evaluateStep (step : Nat) (answer : String) : Option TriageResult :=
  let yes := includesYes answer
  match step with
  | 0 => if yes then none else some endStateRED
  | 1 => if yes then none else some endStateRED
  | 2 => if yes then some endStateRED else none
  | 3 => if yes then some endStateYELLOW else none
  | 4 => if yes then some endStateGREEN else some endStateYELLOW
  | _ => none

/-- The caller chat loop (`handleSendMessage` in CallerPage): feed
answers to `evaluateStep`, advancing `currentStep` while it returns
`null`, stopping at the first terminal result. -/
def runTriage (step : Nat) : List String → Option TriageResult
  | [] => none
  | answer :: rest =>
    match evaluateStep step answer with
    | some result => some result
    | none => runTriage (step + 1) rest

/-! ### Patient records and the dispatch-queue comparator -/

/-- A document of the `patients` collection, as read by the driver
dashboards (the `Patient` interface of DriverPage.tsx / part_002).
`timestampSeconds` models `timestamp?.seconds`; absent optional fields
are `none`. -/
structure Patient where
  id : Option String := none
  type : Option String := none
  triage : Option String := none
  acuity : Option String := none
  photoBase64 : Option String := none
  status : String := ""
  name : Option String := none
  hr : Option String := none
  bp : Option String := none
  spo2 : Option String := none
  notes : Option String := none
  timestampSeconds : Option Int := none
  patientLat : Option ℚ := none
  patientLng : Option ℚ := none
  driverLat : Option ℚ := none
  driverLng : Option ℚ := none
deriving DecidableEq

/-- `tier` from the DriverPage.tsx subscription (lines 136–141): no
BLACK case, so a BLACK-tagged record falls through to 5. -/
def tier (p : Patient) : Int :=
  if p.triage = some "RED" ∨ p.acuity = some "Critical" then 1
  else if p.triage = some "YELLOW" ∨ p.acuity = some "Urgent" then 2
  else if p.triage = some "GREEN" ∨ p.acuity = some "Routine" then 3
  else 5

/-- `getTier` from the mass-casualty variant (part_002 lines 41–47),
which additionally maps BLACK to 4. -/
def getTier (p : Patient) : Int :=
  if p.triage = some "RED" ∨ p.acuity = some "Critical" then 1
  else if p.triage = some "YELLOW" ∨ p.acuity = some "Urgent" then 2
  else if p.triage = some "GREEN" ∨ p.acuity = some "Routine" then 3
  else if p.triage = some "BLACK" then 4
  else 5

/-- `a.timestamp?.seconds ?? 0` (and the numerically equal
`a.timestamp?.seconds || 0` of part_002). -/
def tsOrZero (p : Patient) : Int :=
  p.timestampSeconds.getD 0

/-- The `data.sort` comparator of DriverPage.tsx (lines 142–145):
`tier(a) - tier(b) || (tsA - tsB)` — JS `x || y` yields `y` exactly
when the tier difference is 0. -/
def sortComparator (a b : Patient) : Int :=
  if tier a - tier b = 0 then tsOrZero a - tsOrZero b
  else tier a - tier b

/-- The `data.sort` comparator of the mass-casualty variant (part_002
lines 49–61). -/
def mciSortComparator (a b : Patient) : Int :=
  if getTier a ≠ getTier b then getTier a - getTier b
  else tsOrZero a - tsOrZero b

/-- The dispatch queue's Firestore query filter
`where('status', '==', 'waiting')`. -/
def matchesWaitingQuery (p : Patient) : Bool :=
  p.status == "waiting"

/-! ### Driver status writes (frame conditions, claim C9) -/

/-- Every `updateDoc` partial merge performed on a patient record by the
driver flows after creation. -/
inductive DriverWriteOp
  /-- `handleAcceptDispatch`: `{ status: 'driver_en_route' }`. -/
  | acceptDispatch
  /-- `handlePatientLoaded` (DriverPage.tsx): `{ status: 'en_route_to_hospital' }`. -/
  | patientLoaded
  /-- `handlePatientDelivered`: `{ status: 'delivered' }`. -/
  | patientDelivered
  /-- The 5-second tracking interval: `{ driverLat, driverLng }`. -/
  | trackPosition (lat lng : ℚ)
  /-- `handlePatientLoaded` (part_002 variants): `{ status: 'loaded' }`. -/
  | mciPatientLoaded
  /-- `completeTransport` (part_002): `{ status: 'delivered' }`. -/
  | mciCompleteTransport
deriving DecidableEq

/-- Apply one partial field merge, leaving every unmentioned field
unchanged (Firestore `updateDoc` semantics). -/
def applyDriverWrite (p : Patient) : DriverWriteOp → Patient
  | .acceptDispatch => { p with status := "driver_en_route" }
  | .patientLoaded => { p with status := "en_route_to_hospital" }
  | .patientDelivered => { p with status := "delivered" }
  | .trackPosition lat lng => { p with driverLat := some lat, driverLng := some lng }
  | .mciPatientLoaded => { p with status := "loaded" }
  | .mciCompleteTransport => { p with status := "delivered" }

/-- A whole post-creation update history applied in order. -/
def applyDriverWrites (p : Patient) : List DriverWriteOp → Patient
  | [] => p
  | op :: ops => applyDriverWrites (applyDriverWrite p op) ops

/-! ### Driver flow state machines (claim C3)

The driver pages act on a record held in shared storage that any
number of concurrent front-end instances may also write (spec §5:
last-write-wins field updates, concurrent acceptance not arbitrated).
Each session's behaviour is a function of the shared record status and
the session's own UI state; `selectedPatient` is a snapshot, and no
handler re-checks the record's stored status before writing. -/

/-- Position of a status string along the one-directional chain
waiting → en-route-to-patient → en-route-to-hospital → delivered.
Both `'en_route_to_hospital'` (DriverPage.tsx) and `'loaded'`
(part_002) denote the en-route-to-hospital stage. -/
def statusStage : String → Option Nat
  | "waiting" => some 0
  | "driver_en_route" => some 1
  | "en_route_to_hospital" => some 2
  | "loaded" => some 2
  | "delivered" => some 3
  | _ => none

/-- UI state of one main-driver-page session: queue view, dispatch
modal, navigation phase 1 (to patient), navigation phase 2 (to
hospital). -/
inductive DriverUi
  | queue
  | modal
  | phase1
  | phase2
deriving DecidableEq

/-- The UI events of the main driver page (DriverPage.tsx). -/
inductive DriverEvent
  | select
  | deselect
  | acceptDispatch
  | patientLoaded
  | patientDelivered
deriving DecidableEq

/-- Per-event behaviour of one main-driver-page session, as a function
of the shared record status and the session's own UI state: `none`
when the event's UI surface is not shown, else the status value the
event writes (if any) and the next UI state. Only `select` is guarded
on the record's status (the queue renders the `status == 'waiting'`
query snapshot); `handleAcceptDispatch` (lines 250–262, gated only on
the modal being open and the ETA fetch having finished),
`handlePatientLoaded` (lines 264–275) and `handlePatientDelivered`
(lines 277–293) write unconditionally, without re-checking the
record's stored status. -/
def driverEvent : DriverEvent → String → DriverUi → Option (Option String × DriverUi)
  | .select, status, .queue =>
    if status = "waiting" then some (none, .modal) else none
  | .deselect, _, .modal => some (none, .queue)
  | .acceptDispatch, _, .modal => some (some "driver_en_route", .phase1)
  | .patientLoaded, _, .phase1 => some (some "en_route_to_hospital", .phase2)
  | .patientDelivered, _, .phase2 => some (some "delivered", .queue)
  | _, _, _ => none

/-- One session running with no concurrently interleaved writer: the
record status changes only through this session's own writes. -/
def runDriverSolo : String × DriverUi → List DriverEvent → Option (String × DriverUi)
  | st, [] => some st
  | (status, ui), e :: tr =>
    match driverEvent e status ui with
    | none => none
    | some (w, ui') => runDriverSolo (w.getD status, ui') tr

/-- The shared status of one record together with the UI states of two
concurrent main-driver-page instances. -/
structure DispatchSystem where
  status : String
  ui1 : DriverUi
  ui2 : DriverUi
deriving DecidableEq

/-- Identifies which of the two concurrent sessions acts. -/
inductive SessionId
  | one
  | two
deriving DecidableEq

/-- One UI event by one of the two sessions, applied to the shared
record (a write is a last-write-wins field update of `status`). -/
def stepDispatch (s : DispatchSystem) (who : SessionId) (e : DriverEvent) :
    Option (Option String × DispatchSystem) :=
  match who with
  | .one =>
    match driverEvent e s.status s.ui1 with
    | none => none
    | some (w, ui') => some (w, { status := w.getD s.status, ui1 := ui', ui2 := s.ui2 })
  | .two =>
    match driverEvent e s.status s.ui2 with
    | none => none
    | some (w, ui') => some (w, { status := w.getD s.status, ui1 := s.ui1, ui2 := ui' })

/-- Run an interleaving of events of the two concurrent sessions. -/
def runDispatch : DispatchSystem → List (SessionId × DriverEvent) → Option DispatchSystem
  | s, [] => some s
  | s, (who, e) :: tr =>
    match stepDispatch s who e with
    | none => none
    | some (_, s') => runDispatch s' tr

/-- UI state of one session of the mass-casualty driver variant
(part_002): queue, action modal, transport view. -/
inductive MciUi
  | queue
  | modal
  | transport
deriving DecidableEq

/-- The UI events of the part_002 driver variant. -/
inductive MciEvent
  | select
  | deselect
  | patientLoaded
  | completeTransport
deriving DecidableEq

/-- Per-event behaviour of one part_002 driver session:
`handlePatientLoaded` (lines 361–372) writes `'loaded'` from the
modal, `completeTransport` (lines 374–388) writes `'delivered'` from
the transport view; only `select` checks the record's status (the
waiting-query snapshot). -/
def mciEvent : MciEvent → String → MciUi → Option (Option String × MciUi)
  | .select, status, .queue =>
    if status = "waiting" then some (none, .modal) else none
  | .deselect, _, .modal => some (none, .queue)
  | .patientLoaded, _, .modal => some (some "loaded", .transport)
  | .completeTransport, _, .transport => some (some "delivered", .queue)
  | _, _, _ => none

/-- One part_002 session running with no concurrently interleaved
writer. -/
def runMciSolo : String × MciUi → List MciEvent → Option (String × MciUi)
  | st, [] => some st
  | (status, ui), e :: tr =>
    match mciEvent e status ui with
    | none => none
    | some (w, ui') => runMciSolo (w.getD status, ui') tr

/-! ### Vitals validation and the standard report (paramedicPage.jsx) -/

/-- The `vitals` form state of paramedicPage.jsx. -/
structure VitalsForm where
  name : String
  hr : String
  bp : String
  spo2 : String
  notes : String
deriving DecidableEq

/-- Digits at the front of a character list. -/
def leadingDigits (cs : List Char) : List Char :=
  cs.takeWhile Char.isDigit

/-- Decimal value of a digit list. -/
def digitsToNat (ds : List Char) : Nat :=
  ds.foldl (fun acc c => acc * 10 + (c.toNat - '0'.toNat)) 0

/-- Model of JS `parseInt(s, 10)`: skip leading whitespace, read an
optional sign and the longest digit prefix; `none` models `NaN` (no
digits found). -/
def jsParseInt (s : String) : Option Int :=
  let cs := s.data.dropWhile (fun c => c = ' ' || c = '\t' || c = '\n' || c = '\r')
  match cs with
  | '-' :: rest =>
    if (leadingDigits rest).isEmpty then none
    else some (-(digitsToNat (leadingDigits rest) : Int))
  | '+' :: rest =>
    if (leadingDigits rest).isEmpty then none
    else some (digitsToNat (leadingDigits rest) : Int)
  | _ =>
    if (leadingDigits cs).isEmpty then none
    else some (digitsToNat (leadingDigits cs) : Int)

/-- JS `x < bound` where `x` may be `NaN` (`none`): comparisons with
`NaN` are false. -/
def nanLt (x : Option Int) (bound : Int) : Bool :=
  match x with
  | none => false
  | some v => v < bound

/-- JS `x > bound` where `x` may be `NaN`. -/
def nanGt (x : Option Int) (bound : Int) : Bool :=
  match x with
  | none => false
  | some v => bound < v

/-- Outcome of `validateNormalForm` (paramedicPage.jsx lines 135–155).
`rejected m` is a `return false` path with `toast.error(m)` shown. The
third check reads `!vitals.bp || isNaN(bp) || vitals.bp.trim().length
=== 0` where `bp` is an undeclared identifier, so whenever
`vitals.bp` is non-empty the check throws `ReferenceError: bp is not
defined` instead of returning — modelled by `refError`. `passed`
models the final `return true`. -/
inductive ValidateResult
  | passed
  | rejected (message : String)
  | refError
deriving DecidableEq

/-- `validateNormalForm` (paramedicPage.jsx lines 135–155). -/
def validateNormalForm (v : VitalsForm) : ValidateResult :=
  let hr := jsParseInt v.hr
  let spo2 := jsParseInt v.spo2
  if v.hr = "" || hr.isNone || nanLt hr 1 || nanGt hr 300 then
    .rejected "Heart Rate is required and must be between 1 and 300"
  else if v.spo2 = "" || spo2.isNone || nanLt spo2 0 || nanGt spo2 100 then
    .rejected "SpO2 is required and must be between 0 and 100"
  else if v.bp = "" then
    .rejected "Blood Pressure is required"
  else
    .refError

/-- The document payload `submitStandardReport` hands to `addDoc`
(paramedicPage.jsx lines 165–170): the spread vitals fields plus
`type: 'standard'`, `status: 'waiting'` and the server timestamp. -/
def standardReportDoc (v : VitalsForm) (serverSeconds : Int) : Patient :=
  { name := some v.name, hr := some v.hr, bp := some v.bp
    spo2 := some v.spo2, notes := some v.notes
    type := some "standard", status := "waiting"
    timestampSeconds := some serverSeconds }

/-- Outcome of `submitStandardReport` (paramedicPage.jsx lines
157–180). `written d` is the successful `addDoc(d)`; the other two
outcomes perform no write at all. -/
inductive SubmitResult
  | written (d : Patient)
  | rejectedNoWrite (message : String)
  | thrownNoWrite
deriving DecidableEq

/-- `submitStandardReport`: validation runs strictly before the
`addDoc`; a rejection returns early and an exception aborts the
handler, so neither writes anything. -/
def submitStandardReport (v : VitalsForm) (serverSeconds : Int) : SubmitResult :=
  match validateNormalForm v with
  | .rejected m => .rejectedNoWrite m
  | .refError => .thrownNoWrite
  | .passed => .written (standardReportDoc v serverSeconds)

/-! ### Intake document payloads (claim C10) -/

/-- The caller-triage `addDoc` payload (DriverPage.tsx lines 1090–1097):
written when `evaluateStep` reaches a terminal result. -/
def callerTriageDoc (pId : String) (result : TriageResult) (serverSeconds : Int) : Patient :=
  { id := some pId, triage := some result.triage_category
    status := "waiting"
    patientLat := some (18.5074 : ℚ), patientLng := some (73.8077 : ℚ)
    timestampSeconds := some serverSeconds }

/-- The MCI photo-capture `addDoc` payload (paramedicPage.jsx lines
110–118). -/
def mciCaptureDoc (mciId selectedColor base64Image : String) (serverSeconds : Int) : Patient :=
  { id := some mciId, triage := some selectedColor
    photoBase64 := some base64Image
    status := "waiting"
    timestampSeconds := some serverSeconds }

/-! ### ETA / route advisory (DriverPage.tsx lines 66–76 and 164–187) -/

/-- One route of an OSRM response: `distance` in meters, `duration` in
seconds. -/
structure OsrmRoute where
  distance : ℚ
  duration : ℚ
deriving DecidableEq

/-- Outcome of the single `fetch` + `res.json()` attempt: `failure`
covers a network error or a parse error (both land in the `catch`);
`response routes` is a parsed body whose `routes` array may be absent. -/
inductive FetchOutcome
  | failure
  | response (routes : Option (List OsrmRoute))
deriving DecidableEq

/-- `fetchOsrmRoute` (DriverPage.tsx lines 66–76): on success returns
`data.routes?.[0] ?? null`; the `catch` turns any error into `null`. -/
def fetchOsrmRoute : FetchOutcome → Option OsrmRoute
  | .failure => none
  | .response routes => (routes.getD []).head?

/-- `Math.round x` for JS numbers modelled over `ℚ`: round half towards
positive infinity. -/
def jsMathRound (x : ℚ) : Int :=
  ⌊x + 1 / 2⌋

/-- `x.toFixed(1)` of a non-negative value, as the displayed number of
tenths: nearest multiple of 1/10, ties to the larger value. -/
def toFixed1Tenths (x : ℚ) : Int :=
  ⌊10 * x + 1 / 2⌋

/-- The ETA banner contents: distance in tenths of a kilometre (the
one-decimal display) and whole minutes. -/
structure DispatchETA where
  distanceTenthsKm : Int
  timeMin : Int
deriving DecidableEq

/-- The ETA derivation of `calculateETA` (DriverPage.tsx lines 175–181):
a non-null route yields `(distance / 1000).toFixed(1)` kilometres and
`Math.round(duration / 60)` minutes; a null route leaves the advisory
unavailable (`none`), and the enclosing `try`/`catch` swallows errors. -/
def calculateETA (fetched : FetchOutcome) : Option DispatchETA :=
  match fetchOsrmRoute fetched with
  | none => none
  | some r => some ⟨toFixed1Tenths (r.distance / 1000), jsMathRound (r.duration / 60)⟩

/-! ### Image compression loop (src/unnamed/part_000 lines 24–41) -/

/-- `MAX_SIZE = 100 * 1024`. -/
def MAX_SIZE : Nat := 100 * 1024

/-- `Math.round((dataURL.length * 3) / 4)` — the base64 payload size
estimate. -/
def estimatedSize (dataURL : String) : Nat :=
  (3 * dataURL.length + 2) / 4

/-- The inner `compress()` recursion of `compressToUnder100KB`:
`encode q` models `canvas.toDataURL("image/jpeg", q)` for the captured
canvas. Stops when the size estimate is within `MAX_SIZE` or the
quality has reached the 0.1 floor, else retries at quality − 0.05.
Terminates because the quality drops by 1/20 towards the floor. -/
def compressLoop (encode : ℚ → String) (quality : ℚ) : String × Nat :=
  let dataURL := encode quality
  let size := estimatedSize dataURL
  if size ≤ MAX_SIZE ∨ quality ≤ 1 / 10 then (dataURL, size)
  else compressLoop encode (quality - 1 / 20)
termination_by (⌈(quality - 1 / 10) * 20⌉).toNat
decreasing_by
  rename_i hstop
  push_neg at hstop
  have h3 : ⌈(quality - 1 / 20 - 1 / 10) * 20⌉ = ⌈(quality - 1 / 10) * 20⌉ - 1 := by
    rw [show ((quality - 1 / 20 - 1 / 10) * 20 : ℚ) = (quality - 1 / 10) * 20 - 1 by ring,
      Int.ceil_sub_one]
  have h4 : (0 : ℤ) < ⌈((quality - 1 / 10) * 20 : ℚ)⌉ := Int.ceil_pos.mpr (by nlinarith)
  omega

/-- `compressToUnder100KB`: run the loop from quality 0.9; the callback
receives the final data URL and size estimate, returned here as a pair. -/
def compressToUnder100KB (encode : ℚ → String) : String × Nat :=
  compressLoop encode (9 / 10)

/-! ### Geography: haversine and nearest hospital (DriverPage.tsx lines 34–64) -/

/-- A latitude/longitude pair (the `LatLng` interface). -/
structure LatLng where
  lat : ℝ
  lng : ℝ

/-- An entry of the static hospital list. -/
structure Hospital where
  name : String
  lat : ℝ
  lng : ℝ

/-- The hardcoded `HOSPITALS` constant (lines 34–38). -/
noncomputable def HOSPITALS : List Hospital :=
  [⟨"Deenanath Mangeshkar Hospital", 18.5028, 73.8365⟩,
   ⟨"Sahyadri Hospital Kothrud", 18.5050, 73.8024⟩,
   ⟨"Shashwat Hospital", 18.4965, 73.8202⟩]

/-- JS `Math.atan2 y x` over the reals. -/
noncomputable def atan2 (y x : ℝ) : ℝ :=
  if 0 < x then Real.arctan (y / x)
  else if x = 0 then
    (if 0 < y then Real.pi / 2 else if y < 0 then -(Real.pi / 2) else 0)
  else if 0 ≤ y then Real.arctan (y / x) + Real.pi
  else Real.arctan (y / x) - Real.pi

/-- `haversineKm` (DriverPage.tsx lines 46–56): great-circle distance in
kilometres on an Earth radius of 6371 km. -/
noncomputable def haversineKm (a b : LatLng) : ℝ :=
  let R : ℝ := 6371
  let dLat := (b.lat - a.lat) * Real.pi / 180
  let dLng := (b.lng - a.lng) * Real.pi / 180
  let h := Real.sin (dLat / 2) ^ 2 +
    Real.cos (a.lat * Real.pi / 180) * Real.cos (b.lat * Real.pi / 180) *
      Real.sin (dLng / 2) ^ 2
  R * 2 * atan2 (Real.sqrt h) (Real.sqrt (1 - h))

/-- `closestHospital` (lines 58–64): `HOSPITALS.reduce(...)` keeps the
current best unless a later hospital is strictly closer; a JS `reduce`
without an initial value starts from the first element (and throws on an
empty array — unreachable for the hardcoded list, modelled by a dummy). -/
noncomputable def closestHospital (pt : LatLng) : Hospital :=
  match HOSPITALS with
  | [] => ⟨"", 0, 0⟩
  | h0 :: rest =>
    rest.foldl
      (fun best h =>
        if haversineKm ⟨h.lat, h.lng⟩ pt < haversineKm ⟨best.lat, best.lng⟩ pt then h
        else best)
      h0

/-! ## Helper lemmas -/

theorem isPrefixOf_iff_append (n l : List Char) :
    n.isPrefixOf l = true ↔ ∃ t, n ++ t = l := by
  rw [List.isPrefixOf_iff_prefix]
  exact Iff.rfl

theorem listIncludes_iff (n hay : List Char) :
    listIncludes n hay = true ↔ ∃ pre post, hay = pre ++ n ++ post := by
  induction hay with
  | nil =>
    rw [listIncludes, isPrefixOf_iff_append]
    constructor
    · rintro ⟨t, ht⟩
      exact ⟨[], t, by simp [← ht]⟩
    · rintro ⟨pre, post, hp⟩
      have hn : n = [] := by
        rcases List.append_eq_nil.mp hp.symm with ⟨h1, h2⟩
        exact (List.append_eq_nil.mp h1).2
      exact ⟨[], by simp [hn]⟩
  | cons c rest ih =>
    simp only [listIncludes, Bool.or_eq_true]
    constructor
    · rintro (h | h)
      · obtain ⟨t, ht⟩ := (isPrefixOf_iff_append n (c :: rest)).mp h
        exact ⟨[], t, by simp [← ht]⟩
      · obtain ⟨pre, post, hp⟩ := ih.mp h
        exact ⟨c :: pre, post, by simp [hp]⟩
    · rintro ⟨pre, post, hp⟩
      cases pre with
      | nil =>
        exact Or.inl ((isPrefixOf_iff_append n (c :: rest)).mpr ⟨post, by simp [hp]⟩)
      | cons d pre' =>
        simp only [List.cons_append] at hp
        injection hp with h1 h2
        exact Or.inr (ih.mpr ⟨pre', post, h2⟩)

theorem includesYes_iff (a : String) :
    includesYes a = true ↔
      ∃ pre mid post, a.data = pre ++ mid ++ post ∧ mid.map Char.toLower = "yes".data := by
  rw [includesYes, listIncludes_iff]
  constructor
  · rintro ⟨pre, post, h⟩
    obtain ⟨l₁, l₂, hsplit, hmap₁, hmap₂⟩ := List.map_eq_append_iff.mp h
    obtain ⟨l₁a, l₁b, hsplit', hmap₁a, hmap₁b⟩ := List.map_eq_append_iff.mp hmap₁
    exact ⟨l₁a, l₁b, l₂, by rw [hsplit, hsplit'], hmap₁b⟩
  · rintro ⟨pre, mid, post, h1, h2⟩
    exact ⟨pre.map Char.toLower, post.map Char.toLower, by rw [h1]; simp [h2]⟩

/-! ## Claim theorems -/

/-- C1: iterating the triage step evaluator from step 0 over any 5
answers terminates with exactly one of the three categories
RED/YELLOW/GREEN carrying priority ranks 1/2/3, following the §4.1
table: a non-yes answer at step 0 (regardless of later answers) or at
step 1 yields RED, a yes at step 2 yields RED, a yes at step 3 yields
YELLOW, and at step 4 a yes yields GREEN while a non-yes yields YELLOW;
in particular ["yes","yes","no","no","yes"] ends GREEN. -/
theorem claim_C1_triage_decision_table (a0 a1 a2 a3 a4 : String) :
    (∃ r : TriageResult, runTriage 0 [a0, a1, a2, a3, a4] = some r ∧
        (r = endStateRED ∨ r = endStateYELLOW ∨ r = endStateGREEN)) ∧
    (endStateRED.priority_rank = 1 ∧ endStateYELLOW.priority_rank = 2 ∧
      endStateGREEN.priority_rank = 3) ∧
    (∀ rest : List String, includesYes a0 = false →
      runTriage 0 (a0 :: rest) = some endStateRED) ∧
    (includesYes a0 = true → includesYes a1 = false →
      runTriage 0 [a0, a1, a2, a3, a4] = some endStateRED) ∧
    (includesYes a0 = true → includesYes a1 = true → includesYes a2 = true →
      runTriage 0 [a0, a1, a2, a3, a4] = some endStateRED) ∧
    (includesYes a0 = true → includesYes a1 = true → includesYes a2 = false →
      includesYes a3 = true →
      runTriage 0 [a0, a1, a2, a3, a4] = some endStateYELLOW) ∧
    (includesYes a0 = true → includesYes a1 = true → includesYes a2 = false →
      includesYes a3 = false →
      runTriage 0 [a0, a1, a2, a3, a4] =
        some (if includesYes a4 then endStateGREEN else endStateYELLOW)) ∧
    runTriage 0 ["yes", "yes", "no", "no", "yes"] = some endStateGREEN := by
  refine ⟨?_, ⟨rfl, rfl, rfl⟩, ?_, ?_, ?_, ?_, ?_, ?_⟩
  · cases h0 : includesYes a0 <;> cases h1 : includesYes a1 <;>
      cases h2 : includesYes a2 <;> cases h3 : includesYes a3 <;>
        cases h4 : includesYes a4 <;>
      simp [runTriage, evaluateStep, h0, h1, h2, h3, h4]
  · intro rest h
    simp [runTriage, evaluateStep, h]
  · intro h0 h1
    simp [runTriage, evaluateStep, h0, h1]
  · intro h0 h1 h2
    simp [runTriage, evaluateStep, h0, h1, h2]
  · intro h0 h1 h2 h3
    simp [runTriage, evaluateStep, h0, h1, h2, h3]
  · intro h0 h1 h2 h3
    cases h4 : includesYes a4 <;>
      simp [runTriage, evaluateStep, h0, h1, h2, h3, h4]
  · decide

theorem claim_C1_witness :
    runTriage 0 ["no", "yes", "yes", "yes", "yes"] = some endStateRED ∧
    runTriage 0 ["yes", "yes", "no", "no", "yes"] = some endStateGREEN :=
  ⟨(claim_C1_triage_decision_table "no" "yes" "yes" "yes" "yes").2.2.1
      ["yes", "yes", "yes", "yes"] (by decide),
    (claim_C1_triage_decision_table "yes" "yes" "no" "no" "yes").2.2.2.2.2.2.2⟩

/-- C2: both dispatch-queue comparators order records by tier ascending
(1 for triage RED or acuity Critical, 2 for YELLOW or Urgent, 3 for
GREEN or Routine, 4 for BLACK in the mass-casualty variant only, 5
otherwise) and, for equal tiers, by creation timestamp ascending with
an absent timestamp read as 0. -/
theorem claim_C2_queue_comparator (a b p : Patient) :
    ((p.triage = some "RED" ∨ p.acuity = some "Critical") →
      tier p = 1 ∧ getTier p = 1) ∧
    (¬(p.triage = some "RED" ∨ p.acuity = some "Critical") →
      (p.triage = some "YELLOW" ∨ p.acuity = some "Urgent") →
      tier p = 2 ∧ getTier p = 2) ∧
    (¬(p.triage = some "RED" ∨ p.acuity = some "Critical") →
      ¬(p.triage = some "YELLOW" ∨ p.acuity = some "Urgent") →
      (p.triage = some "GREEN" ∨ p.acuity = some "Routine") →
      tier p = 3 ∧ getTier p = 3) ∧
    (¬(p.triage = some "RED" ∨ p.acuity = some "Critical") →
      ¬(p.triage = some "YELLOW" ∨ p.acuity = some "Urgent") →
      ¬(p.triage = some "GREEN" ∨ p.acuity = some "Routine") →
      p.triage = some "BLACK" →
      getTier p = 4 ∧ tier p = 5) ∧
    (¬(p.triage = some "RED" ∨ p.acuity = some "Critical") →
      ¬(p.triage = some "YELLOW" ∨ p.acuity = some "Urgent") →
      ¬(p.triage = some "GREEN" ∨ p.acuity = some "Routine") →
      ¬p.triage = some "BLACK" →
      tier p = 5 ∧ getTier p = 5) ∧
    (p.timestampSeconds = none → tsOrZero p = 0) ∧
    (sortComparator a b < 0 ↔
      (tier a < tier b ∨ (tier a = tier b ∧ tsOrZero a < tsOrZero b))) ∧
    (mciSortComparator a b < 0 ↔
      (getTier a < getTier b ∨ (getTier a = getTier b ∧ tsOrZero a < tsOrZero b))) := by
  refine ⟨?_, ?_, ?_, ?_, ?_, ?_, ?_, ?_⟩
  · intro h
    simp [tier, getTier, h]
  · intro h1 h2
    simp [tier, getTier, h1, h2]
  · intro h1 h2 h3
    simp [tier, getTier, h1, h2, h3]
  · intro h1 h2 h3 h4
    push_neg at h1 h2 h3
    simp [tier, getTier, h4, h1.2, h2.2, h3.2]
  · intro h1 h2 h3 h4
    simp [tier, getTier, h1, h2, h3, h4]
  · intro h
    simp [tsOrZero, h]
  · unfold sortComparator
    split <;> omega
  · unfold mciSortComparator
    split <;> omega

theorem claim_C2_witness :
    sortComparator { triage := some "RED", timestampSeconds := some 100 }
      { triage := some "YELLOW", timestampSeconds := some 5 } < 0 ∧
    getTier { triage := some "BLACK" } = 4 := by
  have h := claim_C2_queue_comparator
    { triage := some "RED", timestampSeconds := some 100 }
    { triage := some "YELLOW", timestampSeconds := some 5 }
    { triage := some "BLACK" }
  refine ⟨h.2.2.2.2.2.2.1.mpr (Or.inl (by decide)), ?_⟩
  exact (h.2.2.2.1 (by decide) (by decide) (by decide) rfl).1

/-- C7: the triage step evaluator reads an answer as "yes" exactly when
the answer contains "yes" as a substring up to case, and its result
depends on the answer text only through that binary fold — any two
answers with the same fold value are evaluated identically at every
step, so no further validation of the text occurs. -/
theorem claim_C7_yes_substring_fold (step : Nat) (a b : String) :
    (includesYes a = true ↔
      ∃ pre mid post, a.data = pre ++ mid ++ post ∧
        mid.map Char.toLower = "yes".data) ∧
    (includesYes a = includesYes b → evaluateStep step a = evaluateStep step b) := by
  refine ⟨includesYes_iff a, fun h => ?_⟩
  simp only [evaluateStep, h]

theorem claim_C7_witness :
    evaluateStep 0 "YES, absolutely" = evaluateStep 0 "yes" :=
  (claim_C7_yes_substring_fold 0 "YES, absolutely" "yes").2 (by decide)

/-- C9: every post-creation write performed by the driver flows
(accepting a dispatch, marking the patient loaded or delivered in
either page variant, and the live position updates) leaves the
severity fields `triage` and `acuity` unchanged, over any sequence of
such writes. -/
theorem claim_C9_severity_frame (p : Patient) (ops : List DriverWriteOp) :
    (applyDriverWrites p ops).triage = p.triage ∧
    (applyDriverWrites p ops).acuity = p.acuity := by
  induction ops generalizing p with
  | nil => exact ⟨rfl, rfl⟩
  | cons op ops ih =>
    rw [applyDriverWrites]
    refine ⟨(ih (applyDriverWrite p op)).1.trans ?_,
      (ih (applyDriverWrite p op)).2.trans ?_⟩ <;> cases op <;> rfl

/-- C10: all three intake payloads — caller triage completion, MCI
photo capture, and the standard vitals report — are written with
status `'waiting'` and the server-assigned timestamp, and hence match
the dispatch queue's `status == 'waiting'` query. -/
theorem claim_C10_intake_waiting (pId : String) (result : TriageResult)
    (mciId selectedColor base64Image : String) (v : VitalsForm) (t1 t2 t3 : Int) :
    ((callerTriageDoc pId result t1).status = "waiting" ∧
      (callerTriageDoc pId result t1).timestampSeconds = some t1 ∧
      matchesWaitingQuery (callerTriageDoc pId result t1) = true) ∧
    ((mciCaptureDoc mciId selectedColor base64Image t2).status = "waiting" ∧
      (mciCaptureDoc mciId selectedColor base64Image t2).timestampSeconds = some t2 ∧
      matchesWaitingQuery (mciCaptureDoc mciId selectedColor base64Image t2) = true) ∧
    ((standardReportDoc v t3).status = "waiting" ∧
      (standardReportDoc v t3).timestampSeconds = some t3 ∧
      matchesWaitingQuery (standardReportDoc v t3) = true) :=
  ⟨⟨rfl, rfl, rfl⟩, ⟨rfl, rfl, rfl⟩, ⟨rfl, rfl, rfl⟩⟩

/-! ## Status-chain invariants (claim C3) -/

theorem driverEvent_preserves_inv (e : DriverEvent) (status : String) (ui : DriverUi)
    (w : Option String) (ui' : DriverUi)
    (hinv : (ui = DriverUi.modal → status = "waiting") ∧
      (ui = DriverUi.phase1 → status = "driver_en_route") ∧
      (ui = DriverUi.phase2 → status = "en_route_to_hospital"))
    (hstep : driverEvent e status ui = some (w, ui')) :
    (ui' = DriverUi.modal → w.getD status = "waiting") ∧
    (ui' = DriverUi.phase1 → w.getD status = "driver_en_route") ∧
    (ui' = DriverUi.phase2 → w.getD status = "en_route_to_hospital") := by
  cases e <;> cases ui <;> simp only [driverEvent] at hstep <;>
    first
    | (split at hstep <;> cases hstep <;> simp_all)
    | (cases hstep <;> simp_all)

theorem runDriverSolo_inv (tr : List DriverEvent) :
    ∀ (status : String) (ui : DriverUi) (status' : String) (ui' : DriverUi),
      runDriverSolo (status, ui) tr = some (status', ui') →
      ((ui = DriverUi.modal → status = "waiting") ∧
        (ui = DriverUi.phase1 → status = "driver_en_route") ∧
        (ui = DriverUi.phase2 → status = "en_route_to_hospital")) →
      ((ui' = DriverUi.modal → status' = "waiting") ∧
        (ui' = DriverUi.phase1 → status' = "driver_en_route") ∧
        (ui' = DriverUi.phase2 → status' = "en_route_to_hospital")) := by
  induction tr with
  | nil =>
    intro status ui status' ui' h hinv
    rw [runDriverSolo] at h
    cases h
    exact hinv
  | cons e tr ih =>
    intro status ui status' ui' h hinv
    rw [runDriverSolo] at h
    cases he : driverEvent e status ui with
    | none => rw [he] at h; cases h
    | some p =>
      obtain ⟨w, uimid⟩ := p
      rw [he] at h
      exact ih (w.getD status) uimid status' ui' h
        (driverEvent_preserves_inv e status ui w uimid hinv he)

theorem driverEvent_write_forward (e : DriverEvent) (status : String) (ui : DriverUi)
    (w : String) (ui' : DriverUi)
    (hinv : (ui = DriverUi.modal → status = "waiting") ∧
      (ui = DriverUi.phase1 → status = "driver_en_route") ∧
      (ui = DriverUi.phase2 → status = "en_route_to_hospital"))
    (hstep : driverEvent e status ui = some (some w, ui')) :
    ∃ i j, statusStage status = some i ∧ statusStage w = some j ∧ i < j := by
  cases e <;> cases ui <;> simp only [driverEvent] at hstep <;>
    first
    | (split at hstep <;> cases hstep)
    | cases hstep
  · obtain rfl := hinv.1 rfl
    exact ⟨0, 1, rfl, rfl, by omega⟩
  · obtain rfl := hinv.2.1 rfl
    exact ⟨1, 2, rfl, rfl, by omega⟩
  · obtain rfl := hinv.2.2 rfl
    exact ⟨2, 3, rfl, rfl, by omega⟩

theorem mciEvent_preserves_inv (e : MciEvent) (status : String) (ui : MciUi)
    (w : Option String) (ui' : MciUi)
    (hinv : (ui = MciUi.modal → status = "waiting") ∧
      (ui = MciUi.transport → status = "loaded"))
    (hstep : mciEvent e status ui = some (w, ui')) :
    (ui' = MciUi.modal → w.getD status = "waiting") ∧
    (ui' = MciUi.transport → w.getD status = "loaded") := by
  cases e <;> cases ui <;> simp only [mciEvent] at hstep <;>
    first
    | (split at hstep <;> cases hstep <;> simp_all)
    | (cases hstep <;> simp_all)

theorem runMciSolo_inv (tr : List MciEvent) :
    ∀ (status : String) (ui : MciUi) (status' : String) (ui' : MciUi),
      runMciSolo (status, ui) tr = some (status', ui') →
      ((ui = MciUi.modal → status = "waiting") ∧
        (ui = MciUi.transport → status = "loaded")) →
      ((ui' = MciUi.modal → status' = "waiting") ∧
        (ui' = MciUi.transport → status' = "loaded")) := by
  induction tr with
  | nil =>
    intro status ui status' ui' h hinv
    rw [runMciSolo] at h
    cases h
    exact hinv
  | cons e tr ih =>
    intro status ui status' ui' h hinv
    rw [runMciSolo] at h
    cases he : mciEvent e status ui with
    | none => rw [he] at h; cases h
    | some p =>
      obtain ⟨w, uimid⟩ := p
      rw [he] at h
      exact ih (w.getD status) uimid status' ui' h
        (mciEvent_preserves_inv e status ui w uimid hinv he)

theorem mciEvent_write_forward (e : MciEvent) (status : String) (ui : MciUi)
    (w : String) (ui' : MciUi)
    (hinv : (ui = MciUi.modal → status = "waiting") ∧
      (ui = MciUi.transport → status = "loaded"))
    (hstep : mciEvent e status ui = some (some w, ui')) :
    ∃ i j, statusStage status = some i ∧ statusStage w = some j ∧ i < j := by
  cases e <;> cases ui <;> simp only [mciEvent] at hstep <;>
    first
    | (split at hstep <;> cases hstep)
    | cases hstep
  · obtain rfl := hinv.1 rfl
    exact ⟨0, 2, rfl, rfl, by omega⟩
  · obtain rfl := hinv.2 rfl
    exact ⟨2, 3, rfl, rfl, by omega⟩

/-- C3 counterexample: the claim fails as stated. With two concurrent
driver-page instances on one waiting record, session two opens the
dispatch modal, session one accepts, loads and delivers the record
(shared status `'delivered'`), and session two's still-open modal then
fires `handleAcceptDispatch`, writing `'driver_en_route'` — stage 1 of
the chain over stage 3, a strictly backwards status update. -/
theorem claim_C3_counterexample :
    ∃ s : DispatchSystem,
      runDispatch ⟨"waiting", DriverUi.queue, DriverUi.queue⟩
        [(SessionId.two, DriverEvent.select),
          (SessionId.one, DriverEvent.select),
          (SessionId.one, DriverEvent.acceptDispatch),
          (SessionId.one, DriverEvent.patientLoaded),
          (SessionId.one, DriverEvent.patientDelivered)] = some s ∧
      s.status = "delivered" ∧
      stepDispatch s SessionId.two DriverEvent.acceptDispatch =
        some (some "driver_en_route",
          { status := "driver_en_route", ui1 := DriverUi.queue, ui2 := DriverUi.phase1 }) ∧
      statusStage "driver_en_route" = some 1 ∧ statusStage s.status = some 3 :=
  ⟨⟨"delivered", DriverUi.queue, DriverUi.modal⟩, by decide⟩

/-- C3 (amended): every status update performed by a driver flow whose
session runs with no concurrently interleaved writes from other
instances moves the record's status strictly forward along the chain
waiting → en-route-to-patient → en-route-to-hospital → delivered; with
concurrent instances this fails (see the counterexample, where a stale
dispatch modal writes `'driver_en_route'` over `'delivered'`). -/
theorem claim_C3_solo_monotonic :
    (∀ (tr : List DriverEvent) (status : String) (ui : DriverUi),
      runDriverSolo ("waiting", DriverUi.queue) tr = some (status, ui) →
      ∀ (e : DriverEvent) (w : String) (ui' : DriverUi),
        driverEvent e status ui = some (some w, ui') →
        ∃ i j, statusStage status = some i ∧ statusStage w = some j ∧ i < j) ∧
    (∀ (tr : List MciEvent) (status : String) (ui : MciUi),
      runMciSolo ("waiting", MciUi.queue) tr = some (status, ui) →
      ∀ (e : MciEvent) (w : String) (ui' : MciUi),
        mciEvent e status ui = some (some w, ui') →
        ∃ i j, statusStage status = some i ∧ statusStage w = some j ∧ i < j) := by
  constructor
  · intro tr status ui hrun e w ui' hstep
    have hinv := runDriverSolo_inv tr "waiting" DriverUi.queue status ui hrun
      ⟨(fun h => by cases h), (fun h => by cases h), (fun h => by cases h)⟩
    exact driverEvent_write_forward e status ui w ui' hinv hstep
  · intro tr status ui hrun e w ui' hstep
    have hinv := runMciSolo_inv tr "waiting" MciUi.queue status ui hrun
      ⟨(fun h => by cases h), (fun h => by cases h)⟩
    exact mciEvent_write_forward e status ui w ui' hinv hstep

theorem claim_C3_witness :
    ∃ i j, statusStage "waiting" = some i ∧
      statusStage "driver_en_route" = some j ∧ i < j :=
  claim_C3_solo_monotonic.1 [DriverEvent.select] "waiting" DriverUi.modal
    (by decide) DriverEvent.acceptDispatch "driver_en_route" DriverUi.phase1
    (by decide)

/-! ## Vitals validation (claim C4) -/

theorem nanLt_eq_true (x : Option Int) (b : Int) :
    nanLt x b = true ↔ ∃ n, x = some n ∧ n < b := by
  cases x <;> simp [nanLt]

theorem nanGt_eq_true (x : Option Int) (b : Int) :
    nanGt x b = true ↔ ∃ n, x = some n ∧ b < n := by
  cases x <;> simp [nanGt]

theorem validateNormalForm_rejected_of_invalid (v : VitalsForm)
    (hinv : v.hr = "" ∨ jsParseInt v.hr = none ∨
      (∃ n, jsParseInt v.hr = some n ∧ (n < 1 ∨ 300 < n)) ∨
      v.spo2 = "" ∨ jsParseInt v.spo2 = none ∨
      (∃ n, jsParseInt v.spo2 = some n ∧ (n < 0 ∨ 100 < n)) ∨
      v.bp = "") :
    ∃ m, validateNormalForm v = .rejected m := by
  simp only [validateNormalForm]
  by_cases h1 : (decide (v.hr = "") || (jsParseInt v.hr).isNone ||
      nanLt (jsParseInt v.hr) 1 || nanGt (jsParseInt v.hr) 300) = true
  · rw [if_pos h1]
    exact ⟨_, rfl⟩
  · rw [if_neg h1]
    by_cases h2 : (decide (v.spo2 = "") || (jsParseInt v.spo2).isNone ||
        nanLt (jsParseInt v.spo2) 0 || nanGt (jsParseInt v.spo2) 100) = true
    · rw [if_pos h2]
      exact ⟨_, rfl⟩
    · rw [if_neg h2]
      by_cases h3 : v.bp = ""
      · rw [if_pos h3]
        exact ⟨_, rfl⟩
      · exfalso
        simp only [Bool.or_eq_true, decide_eq_true_eq, Option.isNone_iff_eq_none,
          nanLt_eq_true, nanGt_eq_true, not_or] at h1 h2
        obtain ⟨⟨⟨hhr1, hhr2⟩, hhr3⟩, hhr4⟩ := h1
        obtain ⟨⟨⟨hsp1, hsp2⟩, hsp3⟩, hsp4⟩ := h2
        rcases hinv with h | h | ⟨n, hn, h | h⟩ | h | h | ⟨n, hn, h | h⟩ | h
        · exact hhr1 h
        · exact hhr2 h
        · exact hhr3 ⟨n, hn, h⟩
        · exact hhr4 ⟨n, hn, h⟩
        · exact hsp1 h
        · exact hsp2 h
        · exact hsp3 ⟨n, hn, h⟩
        · exact hsp4 ⟨n, hn, h⟩
        · exact h3 h

/-- C4: whenever the heart rate is absent or parses outside 1–300, or
the SpO2 is absent or parses outside 0–100, or the blood-pressure field
is empty, the standard-report submission is rejected locally with an
error message and performs no write; and a record is written only when
validation passes. -/
theorem claim_C4_vitals_validation (v : VitalsForm) (t : Int) :
    ((v.hr = "" ∨ jsParseInt v.hr = none ∨
        (∃ n, jsParseInt v.hr = some n ∧ (n < 1 ∨ 300 < n)) ∨
      v.spo2 = "" ∨ jsParseInt v.spo2 = none ∨
        (∃ n, jsParseInt v.spo2 = some n ∧ (n < 0 ∨ 100 < n)) ∨
      v.bp = "") →
      ∃ m, submitStandardReport v t = .rejectedNoWrite m) ∧
    (∀ d, submitStandardReport v t = .written d → validateNormalForm v = .passed) := by
  constructor
  · intro hinv
    obtain ⟨m, hm⟩ := validateNormalForm_rejected_of_invalid v hinv
    refine ⟨m, ?_⟩
    unfold submitStandardReport
    rw [hm]
  · intro d hd
    unfold submitStandardReport at hd
    cases hv : validateNormalForm v with
    | passed => rfl
    | rejected m => rw [hv] at hd; cases hd
    | refError => rw [hv] at hd; cases hd

theorem claim_C4_witness :
    ∃ m, submitStandardReport
        { name := "A", hr := "", bp := "120/80", spo2 := "98", notes := "" } 0 =
      .rejectedNoWrite m :=
  (claim_C4_vitals_validation
    { name := "A", hr := "", bp := "120/80", spo2 := "98", notes := "" } 0).1
    (Or.inl rfl)

/-! ## ETA advisory (claim C5) -/

/-- C5: the ETA advisory consumes a single routing-service attempt; a
network or parse failure, a body without a `routes` array, and an empty
`routes` array all yield the unavailable result (`none`) rather than an
error, while a successful response yields the first route's distance in
kilometres rounded to one decimal place and its duration rounded to
whole minutes. -/
theorem claim_C5_eta_advisory (fetched : FetchOutcome) :
    (fetched = .failure → calculateETA fetched = none) ∧
    (fetched = .response none → calculateETA fetched = none) ∧
    (fetched = .response (some []) → calculateETA fetched = none) ∧
    (∀ r rs, fetched = .response (some (r :: rs)) →
      calculateETA fetched =
        some ⟨toFixed1Tenths (r.distance / 1000), jsMathRound (r.duration / 60)⟩) := by
  refine ⟨fun h => ?_, fun h => ?_, fun h => ?_, fun r rs h => ?_⟩ <;> subst h <;> rfl

theorem claim_C5_witness :
    calculateETA (.response (some [{ distance := 12345, duration := 678 }])) =
      some { distanceTenthsKm := toFixed1Tenths ((12345 : ℚ) / 1000)
             timeMin := jsMathRound ((678 : ℚ) / 60) } ∧
    calculateETA .failure = none :=
  ⟨(claim_C5_eta_advisory _).2.2.2 { distance := 12345, duration := 678 } [] rfl,
    (claim_C5_eta_advisory _).1 rfl⟩

/-! ## Compression loop (claim C6) -/

theorem compressLoop_reaches (encode : ℚ → String) :
    ∀ (fuel start : Nat), start + fuel = 16 →
      ∃ k : Nat, start ≤ k ∧ k ≤ 16 ∧
        compressLoop encode ((9 : ℚ) / 10 - start * (1 / 20)) =
          (encode ((9 : ℚ) / 10 - k * (1 / 20)),
            estimatedSize (encode ((9 : ℚ) / 10 - k * (1 / 20)))) ∧
        (estimatedSize (encode ((9 : ℚ) / 10 - k * (1 / 20))) ≤ MAX_SIZE ∨
          ((9 : ℚ) / 10 - k * (1 / 20)) ≤ 1 / 10) ∧
        (∀ j : Nat, start ≤ j → j < k →
          ¬(estimatedSize (encode ((9 : ℚ) / 10 - j * (1 / 20))) ≤ MAX_SIZE ∨
            ((9 : ℚ) / 10 - j * (1 / 20)) ≤ 1 / 10)) := by
  intro fuel
  induction fuel with
  | zero =>
    intro start hstart
    obtain rfl : start = 16 := by omega
    have hq : ((9 : ℚ) / 10 - (16 : Nat) * (1 / 20)) ≤ 1 / 10 := by push_cast; norm_num
    refine ⟨16, le_refl _, le_refl _, ?_, Or.inr hq, fun j hj1 hj2 => absurd (hj1.trans_lt hj2) (lt_irrefl _)⟩
    rw [compressLoop, if_pos (Or.inr hq)]
  | succ fuel ih =>
    intro start hstart
    by_cases hstop : (estimatedSize (encode ((9 : ℚ) / 10 - start * (1 / 20))) ≤ MAX_SIZE ∨
        ((9 : ℚ) / 10 - start * (1 / 20)) ≤ 1 / 10)
    · refine ⟨start, le_refl _, by omega, ?_, hstop,
        fun j hj1 hj2 => absurd (hj1.trans_lt hj2) (lt_irrefl _)⟩
      rw [compressLoop, if_pos hstop]
    · obtain ⟨k, hk1, hk2, hres, hstop', hmin⟩ := ih (start + 1) (by omega)
      refine ⟨k, by omega, hk2, ?_, hstop', ?_⟩
      · rw [compressLoop, if_neg hstop]
        have harg : ((9 : ℚ) / 10 - start * (1 / 20)) - 1 / 20 =
            (9 : ℚ) / 10 - ((start + 1 : Nat) : ℚ) * (1 / 20) := by
          push_cast; ring
        rw [harg]
        exact hres
      · intro j hj1 hj2
        rcases Nat.eq_or_lt_of_le hj1 with rfl | hlt
        · exact hstop
        · exact hmin j hlt hj2

/-- C6: for every encoder, the compression loop terminates after at
most 16 quality decrements of 0.05 starting from 0.9, its output is
the encoded payload at the final quality, the final size estimate is
within the 100 KB cap or the final quality is at the 0.1 floor, and
the stop condition failed at every earlier (higher) quality, so the
loop stops at whichever condition is reached first. -/
theorem claim_C6_compression (encode : ℚ → String) :
    ∃ k : Nat, k ≤ 16 ∧
      compressToUnder100KB encode =
        (encode ((9 : ℚ) / 10 - k * (1 / 20)),
          estimatedSize (encode ((9 : ℚ) / 10 - k * (1 / 20)))) ∧
      (estimatedSize (encode ((9 : ℚ) / 10 - k * (1 / 20))) ≤ MAX_SIZE ∨
        ((9 : ℚ) / 10 - k * (1 / 20)) ≤ 1 / 10) ∧
      (∀ j : Nat, j < k →
        ¬(estimatedSize (encode ((9 : ℚ) / 10 - j * (1 / 20))) ≤ MAX_SIZE ∨
          ((9 : ℚ) / 10 - j * (1 / 20)) ≤ 1 / 10)) := by
  obtain ⟨k, _, hk2, hres, hstop, hmin⟩ := compressLoop_reaches encode 16 0 rfl
  refine ⟨k, hk2, ?_, hstop, fun j hj => hmin j (Nat.zero_le j) hj⟩
  unfold compressToUnder100KB
  have h0 : ((9 : ℚ) / 10 - ((0 : Nat) : ℚ) * (1 / 20)) = 9 / 10 := by push_cast; ring
  rw [h0] at hres
  exact hres

/-! ## Nearest hospital (claim C8) -/

theorem foldl_min_spec {α : Type} (d : α → ℝ) (l : List α) :
    ∀ b : α,
      (l.foldl (fun best h => if d h < d best then h else best) b = b ∨
        l.foldl (fun best h => if d h < d best then h else best) b ∈ l) ∧
      d (l.foldl (fun best h => if d h < d best then h else best) b) ≤ d b ∧
      ∀ x ∈ l, d (l.foldl (fun best h => if d h < d best then h else best) b) ≤ d x := by
  induction l with
  | nil =>
    intro b
    exact ⟨Or.inl rfl, le_refl _, by simp⟩
  | cons c rest ih =>
    intro b
    simp only [List.foldl_cons]
    by_cases hc : d c < d b
    · rw [if_pos hc]
      obtain ⟨hmem, hle, hall⟩ := ih c
      refine ⟨?_, hle.trans (le_of_lt hc), ?_⟩
      · rcases hmem with h | h
        · exact Or.inr (by rw [h]; exact List.mem_cons_self c rest)
        · exact Or.inr (List.mem_cons_of_mem c h)
      · intro x hx
        rcases List.mem_cons.mp hx with rfl | hx'
        · exact hle
        · exact hall x hx'
    · rw [if_neg hc]
      obtain ⟨hmem, hle, hall⟩ := ih b
      refine ⟨?_, hle, ?_⟩
      · rcases hmem with h | h
        · exact Or.inl h
        · exact Or.inr (List.mem_cons_of_mem c h)
      · intro x hx
        rcases List.mem_cons.mp hx with rfl | hx'
        · exact hle.trans (not_lt.mp hc)
        · exact hall x hx'

theorem atan2_zero_one : atan2 0 1 = 0 := by
  rw [atan2, if_pos one_pos]
  norm_num [Real.arctan_zero]

theorem atan2_pos_of_pos_of_nonneg (y x : ℝ) (hy : 0 < y) (hx : 0 ≤ x) :
    0 < atan2 y x := by
  rcases hx.lt_or_eq with hx' | hx'
  · rw [atan2, if_pos hx']
    have h0 : (0 : ℝ) < y / x := div_pos hy hx'
    have harc := Real.arctan_strictMono h0
    rwa [Real.arctan_zero] at harc
  · rw [atan2, if_neg (by rw [← hx']; exact lt_irrefl 0), if_pos hx'.symm, if_pos hy]
    exact div_pos Real.pi_pos two_pos

theorem haversineKm_eq_zero_of_eq (a b : LatLng) (h1 : a.lat = b.lat)
    (h2 : a.lng = b.lng) : haversineKm a b = 0 := by
  obtain ⟨alat, alng⟩ := a
  obtain ⟨blat, blng⟩ := b
  dsimp at h1 h2
  subst h1
  subst h2
  simp [haversineKm, Real.sqrt_zero, sub_zero, Real.sqrt_one, atan2_zero_one]

theorem haversineKm_pos (a b : LatLng) (hne : b.lat ≠ a.lat)
    (hd1 : -360 < b.lat - a.lat) (hd2 : b.lat - a.lat < 360)
    (ha1 : -90 ≤ a.lat) (ha2 : a.lat ≤ 90) (hb1 : -90 ≤ b.lat) (hb2 : b.lat ≤ 90) :
    0 < haversineKm a b := by
  have hpi := Real.pi_pos
  simp only [haversineKm]
  set θ := (b.lat - a.lat) * Real.pi / 180 / 2 with hθ
  have hθlt : θ < Real.pi := by
    rw [hθ]
    nlinarith [mul_pos (show (0 : ℝ) < 360 - (b.lat - a.lat) by linarith) hpi]
  have hθgt : -Real.pi < θ := by
    rw [hθ]
    nlinarith [mul_pos (show (0 : ℝ) < (b.lat - a.lat) + 360 by linarith) hpi]
  have hθne : θ ≠ 0 := by
    rw [hθ]
    intro h
    have hd0 : (b.lat - a.lat) * Real.pi = 0 := by linarith
    rcases mul_eq_zero.mp hd0 with h' | h'
    · exact hne (sub_eq_zero.mp h')
    · exact absurd h' (ne_of_gt hpi)
  have hsin : Real.sin θ ≠ 0 := fun h =>
    hθne ((Real.sin_eq_zero_iff_of_lt_of_lt hθgt hθlt).mp h)
  have hsin2 : 0 < Real.sin θ ^ 2 := pow_two_pos_of_ne_zero hsin
  have hcosa : 0 ≤ Real.cos (a.lat * Real.pi / 180) := by
    apply Real.cos_nonneg_of_mem_Icc
    constructor
    · nlinarith [mul_nonneg (show (0 : ℝ) ≤ a.lat + 90 by linarith) hpi.le]
    · nlinarith [mul_nonneg (show (0 : ℝ) ≤ 90 - a.lat by linarith) hpi.le]
  have hcosb : 0 ≤ Real.cos (b.lat * Real.pi / 180) := by
    apply Real.cos_nonneg_of_mem_Icc
    constructor
    · nlinarith [mul_nonneg (show (0 : ℝ) ≤ b.lat + 90 by linarith) hpi.le]
    · nlinarith [mul_nonneg (show (0 : ℝ) ≤ 90 - b.lat by linarith) hpi.le]
  have hH : 0 < Real.sin θ ^ 2 +
      Real.cos (a.lat * Real.pi / 180) * Real.cos (b.lat * Real.pi / 180) *
        Real.sin ((b.lng - a.lng) * Real.pi / 180 / 2) ^ 2 :=
    add_pos_of_pos_of_nonneg hsin2
      (mul_nonneg (mul_nonneg hcosa hcosb) (sq_nonneg _))
  have hat := atan2_pos_of_pos_of_nonneg _ _ (Real.sqrt_pos.mpr hH)
    (Real.sqrt_nonneg (1 - (Real.sin θ ^ 2 +
      Real.cos (a.lat * Real.pi / 180) * Real.cos (b.lat * Real.pi / 180) *
        Real.sin ((b.lng - a.lng) * Real.pi / 180 / 2) ^ 2)))
  exact mul_pos (by norm_num) hat

theorem haversineKm_pos_at (alat alng : ℝ) (pt : LatLng)
    (hne : pt.lat ≠ alat) (hd1 : -360 < pt.lat - alat) (hd2 : pt.lat - alat < 360)
    (ha1 : (-90 : ℝ) ≤ alat) (ha2 : alat ≤ 90) (hb1 : -90 ≤ pt.lat) (hb2 : pt.lat ≤ 90) :
    0 < haversineKm ⟨alat, alng⟩ pt :=
  haversineKm_pos ⟨alat, alng⟩ pt hne hd1 hd2 ha1 ha2 hb1 hb2

/-- C8: nearest-hospital selection is the arg-min of haversine distance
over the static hospital list — the selected hospital is a listed one
and its haversine distance to the pickup is at most that of every
listed hospital — and for a pickup point coinciding with a listed
hospital's coordinates that hospital is selected with computed
distance zero. -/
theorem claim_C8_nearest_hospital (pt : LatLng) :
    (closestHospital pt ∈ HOSPITALS ∧
      ∀ h ∈ HOSPITALS,
        haversineKm ⟨(closestHospital pt).lat, (closestHospital pt).lng⟩ pt ≤
          haversineKm ⟨h.lat, h.lng⟩ pt) ∧
    (∀ h ∈ HOSPITALS, pt.lat = h.lat → pt.lng = h.lng →
      closestHospital pt = h ∧ haversineKm ⟨h.lat, h.lng⟩ pt = 0) := by
  have hfold := foldl_min_spec (fun x : Hospital => haversineKm ⟨x.lat, x.lng⟩ pt)
    [⟨"Sahyadri Hospital Kothrud", 18.5050, 73.8024⟩,
      ⟨"Shashwat Hospital", 18.4965, 73.8202⟩]
    ⟨"Deenanath Mangeshkar Hospital", 18.5028, 73.8365⟩
  constructor
  · constructor
    · rcases hfold.1 with h | h
      · have h' : closestHospital pt =
            ⟨"Deenanath Mangeshkar Hospital", 18.5028, 73.8365⟩ := h
        rw [h', HOSPITALS]
        exact List.mem_cons_self _ _
      · have h' : closestHospital pt ∈
            [(⟨"Sahyadri Hospital Kothrud", 18.5050, 73.8024⟩ : Hospital),
              ⟨"Shashwat Hospital", 18.4965, 73.8202⟩] := h
        rw [HOSPITALS]
        exact List.mem_cons_of_mem _ h'
    · intro h hmemh
      rw [HOSPITALS] at hmemh
      rcases List.mem_cons.mp hmemh with rfl | hmemh'
      · exact hfold.2.1
      · exact hfold.2.2 h hmemh'
  · intro h hmemh hlat hlng
    rw [HOSPITALS] at hmemh
    simp only [List.mem_cons, List.not_mem_nil, or_false] at hmemh
    rcases hmemh with rfl | rfl | rfl
    · have hlat' : pt.lat = (18.5028 : ℝ) := hlat
      have hlng' : pt.lng = (73.8365 : ℝ) := hlng
      have hd0 : haversineKm ⟨(18.5028 : ℝ), 73.8365⟩ pt = 0 :=
        haversineKm_eq_zero_of_eq _ _ hlat'.symm hlng'.symm
      have hd1 : 0 < haversineKm ⟨(18.5050 : ℝ), 73.8024⟩ pt :=
        haversineKm_pos_at _ _ pt (by rw [hlat']; norm_num) (by rw [hlat']; norm_num)
          (by rw [hlat']; norm_num) (by norm_num) (by norm_num)
          (by rw [hlat']; norm_num) (by rw [hlat']; norm_num)
      have hd2 : 0 < haversineKm ⟨(18.4965 : ℝ), 73.8202⟩ pt :=
        haversineKm_pos_at _ _ pt (by rw [hlat']; norm_num) (by rw [hlat']; norm_num)
          (by rw [hlat']; norm_num) (by norm_num) (by norm_num)
          (by rw [hlat']; norm_num) (by rw [hlat']; norm_num)
      refine ⟨?_, hd0⟩
      have hinner : (if haversineKm ⟨(18.5050 : ℝ), 73.8024⟩ pt <
            haversineKm ⟨(18.5028 : ℝ), 73.8365⟩ pt
          then (⟨"Sahyadri Hospital Kothrud", 18.5050, 73.8024⟩ : Hospital)
          else ⟨"Deenanath Mangeshkar Hospital", 18.5028, 73.8365⟩) =
          ⟨"Deenanath Mangeshkar Hospital", 18.5028, 73.8365⟩ :=
        if_neg (by rw [hd0]; exact not_lt.mpr hd1.le)
      simp only [closestHospital, HOSPITALS, List.foldl]
      rw [hinner]
      dsimp only
      rw [if_neg (by rw [hd0]; exact not_lt.mpr hd2.le)]
    · have hlat' : pt.lat = (18.5050 : ℝ) := hlat
      have hlng' : pt.lng = (73.8024 : ℝ) := hlng
      have hd1 : haversineKm ⟨(18.5050 : ℝ), 73.8024⟩ pt = 0 :=
        haversineKm_eq_zero_of_eq _ _ hlat'.symm hlng'.symm
      have hd0 : 0 < haversineKm ⟨(18.5028 : ℝ), 73.8365⟩ pt :=
        haversineKm_pos_at _ _ pt (by rw [hlat']; norm_num) (by rw [hlat']; norm_num)
          (by rw [hlat']; norm_num) (by norm_num) (by norm_num)
          (by rw [hlat']; norm_num) (by rw [hlat']; norm_num)
      have hd2 : 0 < haversineKm ⟨(18.4965 : ℝ), 73.8202⟩ pt :=
        haversineKm_pos_at _ _ pt (by rw [hlat']; norm_num) (by rw [hlat']; norm_num)
          (by rw [hlat']; norm_num) (by norm_num) (by norm_num)
          (by rw [hlat']; norm_num) (by rw [hlat']; norm_num)
      refine ⟨?_, hd1⟩
      have hinner : (if haversineKm ⟨(18.5050 : ℝ), 73.8024⟩ pt <
            haversineKm ⟨(18.5028 : ℝ), 73.8365⟩ pt
          then (⟨"Sahyadri Hospital Kothrud", 18.5050, 73.8024⟩ : Hospital)
          else ⟨"Deenanath Mangeshkar Hospital", 18.5028, 73.8365⟩) =
          ⟨"Sahyadri Hospital Kothrud", 18.5050, 73.8024⟩ :=
        if_pos (by rw [hd1]; exact hd0)
      simp only [closestHospital, HOSPITALS, List.foldl]
      rw [hinner]
      dsimp only
      rw [if_neg (by rw [hd1]; exact not_lt.mpr hd2.le)]
    · have hlat' : pt.lat = (18.4965 : ℝ) := hlat
      have hlng' : pt.lng = (73.8202 : ℝ) := hlng
      have hd2 : haversineKm ⟨(18.4965 : ℝ), 73.8202⟩ pt = 0 :=
        haversineKm_eq_zero_of_eq _ _ hlat'.symm hlng'.symm
      have hd0 : 0 < haversineKm ⟨(18.5028 : ℝ), 73.8365⟩ pt :=
        haversineKm_pos_at _ _ pt (by rw [hlat']; norm_num) (by rw [hlat']; norm_num)
          (by rw [hlat']; norm_num) (by norm_num) (by norm_num)
          (by rw [hlat']; norm_num) (by rw [hlat']; norm_num)
      have hd1 : 0 < haversineKm ⟨(18.5050 : ℝ), 73.8024⟩ pt :=
        haversineKm_pos_at _ _ pt (by rw [hlat']; norm_num) (by rw [hlat']; norm_num)
          (by rw [hlat']; norm_num) (by norm_num) (by norm_num)
          (by rw [hlat']; norm_num) (by rw [hlat']; norm_num)
      refine ⟨?_, hd2⟩
      by_cases hc : haversineKm ⟨(18.5050 : ℝ), 73.8024⟩ pt <
          haversineKm ⟨(18.5028 : ℝ), 73.8365⟩ pt
      · have hinner : (if haversineKm ⟨(18.5050 : ℝ), 73.8024⟩ pt <
              haversineKm ⟨(18.5028 : ℝ), 73.8365⟩ pt
            then (⟨"Sahyadri Hospital Kothrud", 18.5050, 73.8024⟩ : Hospital)
            else ⟨"Deenanath Mangeshkar Hospital", 18.5028, 73.8365⟩) =
            ⟨"Sahyadri Hospital Kothrud", 18.5050, 73.8024⟩ := if_pos hc
        simp only [closestHospital, HOSPITALS, List.foldl]
        rw [hinner]
        dsimp only
        rw [if_pos (by rw [hd2]; exact hd1)]
      · have hinner : (if haversineKm ⟨(18.5050 : ℝ), 73.8024⟩ pt <
              haversineKm ⟨(18.5028 : ℝ), 73.8365⟩ pt
            then (⟨"Sahyadri Hospital Kothrud", 18.5050, 73.8024⟩ : Hospital)
            else ⟨"Deenanath Mangeshkar Hospital", 18.5028, 73.8365⟩) =
            ⟨"Deenanath Mangeshkar Hospital", 18.5028, 73.8365⟩ := if_neg hc
        simp only [closestHospital, HOSPITALS, List.foldl]
        rw [hinner]
        dsimp only
        rw [if_pos (by rw [hd2]; exact hd0)]

theorem claim_C8_witness :
    closestHospital ⟨(18.5050 : ℝ), 73.8024⟩ =
      ⟨"Sahyadri Hospital Kothrud", 18.5050, 73.8024⟩ ∧
    haversineKm ⟨(18.5050 : ℝ), 73.8024⟩ ⟨(18.5050 : ℝ), 73.8024⟩ = 0 := by
  have h := (claim_C8_nearest_hospital ⟨(18.5050 : ℝ), 73.8024⟩).2
    ⟨"Sahyadri Hospital Kothrud", 18.5050, 73.8024⟩
    (by rw [HOSPITALS]; exact List.mem_cons_of_mem _ (List.mem_cons_self _ _)) rfl rfl
  exact ⟨h.1, h.2⟩

end EmergencyDispatch
